import Mathlib

/-!
Shallow embedding of `src/jira_chatbot.py` (a command-line Jira assistant that
translates natural-language requests into JQL via an OpenAI backend), together
with proofs about the query-translation core, the conversation-context window,
the issue listing and detail lookup, the timestamp formatter, and the command
router.

External collaborators (the OpenAI chat completion endpoint and the two MCP
Jira tool functions) are modelled as explicit outcome parameters: one call per
command is made, so a single outcome value per collaborator suffices.  Python
exceptions are modelled by outcome constructors (`failure` / `raises`); every
function of the embedding is total, mirroring the fact that every call site in
the source catches all exceptions.
-/

/-! Python string primitives, modelled over `List Char` (Python `str` is a
sequence of characters).  The source only manipulates ASCII command text. -/

-- Python `str.strip()` removes these characters (ASCII whitespace).
def pySpace (c : Char) : Bool :=
  c = ' ' || c = '\t' || c = '\n' || c = '\r' || c = '\x0b' || c = '\x0c'

-- Python `str.lower()` / `str.upper()`: per-character case mapping.
def pyLower (s : String) : String := String.mk (s.data.map Char.toLower)

def pyUpper (s : String) : String := String.mk (s.data.map Char.toUpper)

-- Python `str.strip()`: drop leading and trailing whitespace.
def pyStrip (s : String) : String :=
  String.mk (((s.data.dropWhile pySpace).reverse.dropWhile pySpace).reverse)

-- Boolean list-prefix test (Python `str.startswith` on the char sequence).
def leadsWith : List Char → List Char → Bool
  | [], _ => true
  | _ :: _, [] => false
  | p :: ps, c :: cs => p == c && leadsWith ps cs

def pyStartsWith (s pat : String) : Bool := leadsWith pat.data s.data

-- Python `str.split(sep)` for a non-empty separator: scan left to right,
-- cutting at each non-overlapping occurrence of the separator.  One input
-- character is consumed per step; after a cut, `skip` counts the remaining
-- separator characters still to be consumed.
def splitGo (s0 : Char) (stail : List Char) : List Char → List Char → Nat → List (List Char)
  | [], acc, _ => [acc.reverse]
  | _ :: rest, acc, skip + 1 => splitGo s0 stail rest acc skip
  | c :: rest, acc, 0 =>
    if leadsWith (s0 :: stail) (c :: rest) then
      acc.reverse :: splitGo s0 stail rest [] stail.length
    else
      splitGo s0 stail rest (c :: acc) 0

def pySplit (s sep : String) : List String :=
  match sep.data with
  | [] => [s]   -- Python raises ValueError here; never hit by the source.
  | s0 :: stail => (splitGo s0 stail s.data [] 0).map String.mk

/-! Conversation data model and the OpenAI-backed translator
(`JiraChatbot._get_ai_response`, lines 40-61, and
`JiraChatbot._generate_jql_from_natural_language`, lines 63-84). -/

/-- One message of the conversation: `{"role": ..., "content": ...}`. -/
structure Turn where
  role : String
  content : String
deriving DecidableEq, Repr

/-- Outcome of one `openai.ChatCompletion.create` call: either a reply text
(`response.choices[0].message.content`) or an exception whose `str(e)` is
`errMsg`.  Any exception raised while extracting the reply from a malformed
response object is also a `failure`. -/
inductive BackendOutcome
  | success (reply : String)
  | failure (errMsg : String)
deriving DecidableEq, Repr

/-- The text the `except` block of `_get_ai_response` sees (`str(e)`) resp.
the reply the success path sees. -/
def backendText : BackendOutcome → String
  | .success reply => reply
  | .failure errMsg => errMsg

/-- What one `_get_ai_response` call produces: its return value, the updated
`self.conversation_history`, and the `messages` payload it assembled for the
backend request (model gpt-3.5-turbo, temperature 0.7, max_tokens 150). -/
structure AiCallResult where
  result : String
  history : List Turn
  messages : List Turn
deriving DecidableEq, Repr

/-- `JiraChatbot._get_ai_response` (lines 40-61).  `history[-5:]` is the
Python slice: the last `min (length, 5)` elements, i.e. `drop (length - 5)`
with truncated subtraction.  On success the instruction and the raw reply are
appended to the history; on any exception the function returns `str(e)` and
the history is left as it was (the appends on lines 57-58 are not reached). -/
def getAiResponse (history : List Turn) (prompt sysPrompt : String)
    (o : BackendOutcome) : AiCallResult :=
  let messages : List Turn :=
    ⟨"system", sysPrompt⟩ :: (history.drop (history.length - 5) ++ [⟨"user", prompt⟩])
  match o with
  | .success reply =>
      { result := reply
        history := history ++ [⟨"user", prompt⟩, ⟨"assistant", reply⟩]
        messages := messages }
  | .failure errMsg =>
      { result := errMsg
        history := history
        messages := messages }

/-- The few-shot system prompt of `_generate_jql_from_natural_language`
(lines 65-77), a Python triple-quoted string. -/
def jqlSystemPrompt : String :=
  "\n        You are a Jira query expert. Convert natural language queries to JQL (Jira Query Language).\n        Only respond with the JQL query, nothing else.\n        Examples:\n        Input: \"show me all high priority bugs assigned to me\"\n        Output: assignee = currentUser() AND priority = High AND type = Bug ORDER BY created DESC\n        Input: \"what are my open tasks\"\n        Output: assignee = currentUser() AND status = \"Open\" ORDER BY created DESC\n        Input: \"show my latest issues\"\n        Output: assignee = currentUser() ORDER BY created DESC\n        Input: \"find issues created today\"\n        Output: assignee = currentUser() AND created >= startOfDay() ORDER BY created DESC\n        "

/-- Value and history side effect of one translation call. -/
structure JqlResult where
  jql : String
  history : List Turn
deriving DecidableEq, Repr

/-- The hard-coded fallback query of line 84 and the fixed listing query of
line 117. -/
def defaultJql : String := "assignee = currentUser() ORDER BY created DESC"

/-- `JiraChatbot._generate_jql_from_natural_language` (lines 63-84).
`_get_ai_response` catches every exception and returns `str(e)` (lines 60-61),
so the `try` body here — a call to `_get_ai_response` followed by
`response.strip()` — cannot raise; the `except` branch of lines 82-84, which
would return `defaultJql`, is unreachable, and the call always evaluates to
the strip of whatever `_get_ai_response` returned. -/
def generateJqlFromNaturalLanguage (history : List Turn) (query : String)
    (o : BackendOutcome) : JqlResult :=
  let r := getAiResponse history query jqlSystemPrompt o
  { jql := pyStrip r.result, history := r.history }

/-! Colorama escape sequences used by the display code. -/

def foreRed : String := "\x1b[31m"
def foreGreen : String := "\x1b[32m"
def foreYellow : String := "\x1b[33m"
def foreCyan : String := "\x1b[36m"
def styleReset : String := "\x1b[0m"

/-! Timestamp formatting (`JiraChatbot._format_date`, lines 86-92):
`datetime.strptime(date_str[:19], "%Y-%m-%dT%H:%M:%S")` followed by
`dt.strftime("%Y-%m-%d %H:%M:%S")`, with any exception falling back to the
raw input string.

CPython compiles the strptime format into the regular expression
`(\d\d\d\d)-(1[0-2]|0[1-9]|[1-9])-(3[01]|[12]\d|0[1-9]|[1-9]| [1-9])T(2[0-3]|[0-1]\d|\d):([0-5]\d|\d):(6[0-1]|[0-5]\d|\d)`
matched case-insensitively (so the literal `T` also matches `t`), requires
the match to consume the whole 19-character slice, and then validates the
fields through the `datetime` constructor (year 1-9999, day within the
month accounting for leap years, second at most 59).  We embed the regular
expression as ordered alternation with full backtracking, each alternative
being a sequence of character classes; `\d` is modelled as the ASCII digit
class. -/

def digitClass (c : Char) : Bool := c.isDigit

def rangeClass (lo hi : Char) (c : Char) : Bool := lo ≤ c && c ≤ hi

def litClass (x c : Char) : Bool := c = x

-- The literal `T` of the format under `re.IGNORECASE`.
def tClass (c : Char) : Bool := c = 'T' || c = 't'

-- Value of one matched character (`int()` ignores a leading blank, which the
-- day directive can match).
def charVal (c : Char) : Nat := if c = ' ' then 0 else c.toNat - 48

def valOf (m : List Char) : Nat := m.foldl (fun a c => a * 10 + charVal c) 0

/-- Match a fixed sequence of character classes at the front of the input,
returning the consumed characters and the remainder. -/
def matchSeq : List (Char → Bool) → List Char → Option (List Char × List Char)
  | [], cs => some ([], cs)
  | _ :: _, [] => none
  | p :: ps, c :: cs =>
    if p c then
      match matchSeq ps cs with
      | some (m, r) => some (c :: m, r)
      | none => none
    else
      none

/-- First alternative (in order) for which the continuation succeeds —
ordered alternation with backtracking, as in the regex engine. -/
def altFirst {α β : Type} : List α → (α → Option β) → Option β
  | [], _ => none
  | x :: xs, f =>
    match f x with
    | some b => some b
    | none => altFirst xs f

def matchAlts {β : Type} (alts : List (List (Char → Bool))) (cs : List Char)
    (k : Nat → List Char → Option β) : Option β :=
  altFirst alts fun alt => (matchSeq alt cs).bind fun p => k (valOf p.1) p.2

def altsY : List (List (Char → Bool)) :=
  [[digitClass, digitClass, digitClass, digitClass]]

def altsm : List (List (Char → Bool)) :=
  [[litClass '1', rangeClass '0' '2'], [litClass '0', rangeClass '1' '9'],
   [rangeClass '1' '9']]

def altsd : List (List (Char → Bool)) :=
  [[litClass '3', rangeClass '0' '1'], [rangeClass '1' '2', digitClass],
   [litClass '0', rangeClass '1' '9'], [rangeClass '1' '9'],
   [litClass ' ', rangeClass '1' '9']]

def altsH : List (List (Char → Bool)) :=
  [[litClass '2', rangeClass '0' '3'], [rangeClass '0' '1', digitClass],
   [digitClass]]

def altsM : List (List (Char → Bool)) :=
  [[rangeClass '0' '5', digitClass], [digitClass]]

def altsS : List (List (Char → Bool)) :=
  [[litClass '6', rangeClass '0' '1'], [rangeClass '0' '5', digitClass],
   [digitClass]]

/-- Leftmost match of the compiled `%Y-%m-%dT%H:%M:%S` pattern, returning the
six field values and the unconsumed remainder. -/
def regexMatch (cs : List Char) :
    Option ((Nat × Nat × Nat × Nat × Nat × Nat) × List Char) :=
  matchAlts altsY cs fun y cs =>
  matchAlts [[litClass '-']] cs fun _ cs =>
  matchAlts altsm cs fun mo cs =>
  matchAlts [[litClass '-']] cs fun _ cs =>
  matchAlts altsd cs fun d cs =>
  matchAlts [[tClass]] cs fun _ cs =>
  matchAlts altsH cs fun h cs =>
  matchAlts [[litClass ':']] cs fun _ cs =>
  matchAlts altsM cs fun mi cs =>
  matchAlts [[litClass ':']] cs fun _ cs =>
  matchAlts altsS cs fun s cs =>
  some ((y, mo, d, h, mi, s), cs)

def isLeapYear (y : Nat) : Bool := y % 4 = 0 && (y % 100 ≠ 0 || y % 400 = 0)

def daysInMonth (y mo : Nat) : Nat :=
  if mo = 2 then (if isLeapYear y then 29 else 28)
  else if mo = 4 ∨ mo = 6 ∨ mo = 9 ∨ mo = 11 then 30
  else 31

/-- `datetime.strptime(slice, "%Y-%m-%dT%H:%M:%S")` on a string of at most 19
characters: `none` models a raised `ValueError` — a regex mismatch,
unconverted trailing data, or a field rejected by the `datetime`
constructor. -/
def strptime19 (cs : List Char) : Option (Nat × Nat × Nat × Nat × Nat × Nat) :=
  match regexMatch cs with
  | some ((y, mo, d, h, mi, s), rest) =>
      if rest = [] ∧ 1 ≤ y ∧ y ≤ 9999 ∧ 1 ≤ mo ∧ mo ≤ 12 ∧ 1 ≤ d ∧
          d ≤ daysInMonth y mo ∧ h ≤ 23 ∧ mi ≤ 59 ∧ s ≤ 59 then
        some (y, mo, d, h, mi, s)
      else
        none
  | none => none

/-- `%02d` rendering of a field (all fields passed by the source are below
100, where the rendering is two digit characters). -/
def twoDigit (n : Nat) : String :=
  if n < 100 then String.mk [Nat.digitChar (n / 10), Nat.digitChar (n % 10)]
  else Nat.repr n

/-- Four-digit rendering of `%Y` (strptime only produces years up to 9999). -/
def fourDigit (y : Nat) : String :=
  if y < 10000 then
    String.mk [Nat.digitChar (y / 1000), Nat.digitChar (y / 100 % 10),
               Nat.digitChar (y / 10 % 10), Nat.digitChar (y % 10)]
  else Nat.repr y

/-- `dt.strftime("%Y-%m-%d %H:%M:%S")` (line 90). -/
def strftimeDisplay (y mo d h mi s : Nat) : String :=
  fourDigit y ++ "-" ++ twoDigit mo ++ "-" ++ twoDigit d ++ " " ++
    twoDigit h ++ ":" ++ twoDigit mi ++ ":" ++ twoDigit s

/-- `JiraChatbot._format_date` (lines 86-92): reformat on a successful parse
of the first 19 characters, otherwise return the input unchanged. -/
def formatDate (dateStr : String) : String :=
  match strptime19 (dateStr.data.take 19) with
  | some (y, mo, d, h, mi, s) => strftimeDisplay y mo d h mi s
  | none => dateStr

/-! Issue records and display (`JiraChatbot._format_issue_display`,
lines 94-107). -/

/-- The fields of an issue object the display code reads.  `description`
models `issue["fields"].get("description")`: `none` when absent. -/
structure Issue where
  key : String
  summary : String
  status : String
  priority : String
  created : String
  updated : String
  description : Option String
deriving DecidableEq, Repr

/-- `_format_issue_display`: one multi-line block per issue.  The description
line is added only when requested and the field is truthy (present and
non-empty). -/
def formatIssueDisplay (issue : Issue) (includeDescription : Bool) : String :=
  let base : List String :=
    [ "\n" ++ foreCyan ++ "Issue Key:" ++ styleReset ++ " " ++ issue.key
    , foreCyan ++ "Summary:" ++ styleReset ++ " " ++ issue.summary
    , foreCyan ++ "Status:" ++ styleReset ++ " " ++ issue.status
    , foreCyan ++ "Priority:" ++ styleReset ++ " " ++ issue.priority
    , foreCyan ++ "Created:" ++ styleReset ++ " " ++ formatDate issue.created
    , foreCyan ++ "Updated:" ++ styleReset ++ " " ++ formatDate issue.updated ]
  let lines :=
    match issue.description with
    | some d =>
        if includeDescription ∧ d ≠ "" then
          base ++ [foreCyan ++ "Description:" ++ styleReset ++ " " ++ d]
        else base
    | none => base
  String.intercalate "\n" lines

/-! Issue search (`jira_jql_search`, lines 14-23, and
`JiraChatbot.get_my_issues`, lines 109-140). -/

/-- Parsed body of a JQL search response: the issue list and the optional
`total` count. -/
structure SearchResponse where
  issues : List Issue
  total : Option Nat
deriving DecidableEq, Repr

/-- Outcome of one `mcp_jira_mcp_jql_search` call (JSON decoding of a string
response included): a parsed response, or an exception. -/
inductive SearchOutcome
  | returns (resp : SearchResponse)
  | raises (errMsg : String)

/-- `jira_jql_search` (lines 14-23): any exception is caught, logged, and
replaced by `{"issues": []}`. -/
def jiraJqlSearch (o : SearchOutcome) : SearchResponse :=
  match o with
  | .returns resp => resp
  | .raises _ => { issues := [], total := none }

/-- The early-return message of line 126. -/
def noIssuesMessage : String :=
  foreYellow ++ "No issues found matching your query." ++ styleReset

/-- The field list passed to the search tool (line 122). -/
def searchFields : List String :=
  ["summary", "status", "priority", "created", "updated", "description"]

def dashes50 : String := String.mk (List.replicate 50 '-')

/-- Lines 125-137: the zero-issue early return, or the `Found N issue(s):`
header followed by one display block and a dashed separator per issue.
(`if not response or not response.get("issues")` collapses to an emptiness
test on the issue list: `jira_jql_search` always returns a dictionary.) -/
def renderIssueListing (resp : SearchResponse) : String :=
  if resp.issues = [] then noIssuesMessage
  else
    let total := resp.total.getD resp.issues.length
    let header := foreGreen ++ "Found " ++ toString total ++ " issue(s):" ++ styleReset
    String.intercalate "\n"
      (header :: (resp.issues.map fun i => [formatIssueDisplay i false, dashes50]).flatten)

/-- Instrumented result of `get_my_issues`: its return string, the
conversation history afterwards, whether the translator was invoked, and the
JQL string handed to the search tool. -/
structure MyIssuesResult where
  output : String
  history : List Turn
  translatorCalled : Bool
  translatorInput : Option String
  jqlUsed : String
deriving DecidableEq, Repr

/-- `JiraChatbot.get_my_issues` (lines 109-140): translate the natural-language
query when one is truthy, otherwise use the fixed default query; search;
render.  Line 113 tests `if natural_query:` — Python truthiness — so an
absent argument *and* an empty string both take the default-query path with
no translator call.  The `except` of line 139 only guards against malformed
issue objects, which the typed `Issue` record rules out. -/
def getMyIssues (search : String → SearchOutcome) (history : List Turn)
    (naturalQuery : Option String) (o : BackendOutcome) : MyIssuesResult :=
  match naturalQuery with
  | some q =>
      if q = "" then
        { output := renderIssueListing (jiraJqlSearch (search defaultJql))
          history := history
          translatorCalled := false
          translatorInput := none
          jqlUsed := defaultJql }
      else
        let g := generateJqlFromNaturalLanguage history q o
        { output := renderIssueListing (jiraJqlSearch (search g.jql))
          history := g.history
          translatorCalled := true
          translatorInput := some q
          jqlUsed := g.jql }
  | none =>
      { output := renderIssueListing (jiraJqlSearch (search defaultJql))
        history := history
        translatorCalled := false
        translatorInput := none
        jqlUsed := defaultJql }

/-! Issue detail lookup (`jira_get_issue`, lines 25-34, and
`JiraChatbot.get_issue_details`, lines 142-159). -/

/-- Outcome of one `mcp_jira_mcp_get_issue` call: a returned issue object
(`none` for a falsy response such as `None`), or an exception. -/
inductive FetchOutcome
  | returns (issue : Option Issue)
  | raises (errMsg : String)

/-- `jira_get_issue` (lines 25-34): any exception is caught, logged, and
replaced by `None`. -/
def jiraGetIssue (o : FetchOutcome) : Option Issue :=
  match o with
  | .returns issue => issue
  | .raises _ => none

/-- The not-found message of line 152. -/
def notFoundMessage (issueKey : String) : String :=
  foreRed ++ "Issue " ++ issueKey ++ " not found." ++ styleReset

/-- `JiraChatbot.get_issue_details` (lines 142-159). -/
def getIssueDetails (fetch : String → FetchOutcome) (issueKey : String) : String :=
  match jiraGetIssue (fetch issueKey) with
  | none => notFoundMessage issueKey
  | some issue =>
      String.intercalate "\n"
        [ foreGreen ++ "Details for issue " ++ issueKey ++ ":" ++ styleReset
        , formatIssueDisplay issue true ]

/-! Command routing (`JiraChatbot.process_command`, lines 161-176, and
`JiraChatbot._get_help`, lines 178-196). -/

def helpText : String :=
  String.intercalate "\n"
    [ "\n" ++ foreGreen ++ "Available commands:" ++ styleReset
    , "1. Basic commands:"
    , "   - my issues: Show all issues assigned to you"
    , "   - details [ISSUE-KEY]: Show detailed information about a specific issue"
    , "   - help: Show this help message"
    , "   - exit: Exit the chatbot"
    , ""
    , "2. Natural language queries (examples):"
    , "   - show me my high priority tasks"
    , "   - what issues are in To Do status"
    , "   - show my latest created issues"
    , "   - find issues created today"
    , ""
    , foreYellow ++ "Tip: You can ask about your issues in plain English!" ++ styleReset ]

/-- Instrumented result of `process_command`. -/
structure CommandResult where
  output : String
  history : List Turn
  translatorCalled : Bool
  translatorInput : Option String
  jqlUsed : Option String
  detailKey : Option String
deriving DecidableEq, Repr

def listingCommands : List String := ["my issues", "show my issues", "list issues"]

/-- `JiraChatbot.process_command` (lines 161-176): normalize the input with
`command.lower().strip()`, then route.  In the `details` branch the key is
`command.split("details ")[1].strip().upper()`; `startswith` guarantees the
split has a second element, which `getD 1 ""` selects. -/
def processCommand (search : String → SearchOutcome) (fetch : String → FetchOutcome)
    (o : BackendOutcome) (history : List Turn) (input : String) : CommandResult :=
  let command := pyStrip (pyLower input)
  if command ∈ listingCommands then
    let r := getMyIssues search history none o
    { output := r.output, history := r.history
      translatorCalled := r.translatorCalled, translatorInput := r.translatorInput
      jqlUsed := some r.jqlUsed, detailKey := none }
  else if pyStartsWith command "details " then
    let issueKey := pyUpper (pyStrip ((pySplit command "details ").getD 1 ""))
    { output := getIssueDetails fetch issueKey, history := history
      translatorCalled := false, translatorInput := none
      jqlUsed := none, detailKey := some issueKey }
  else if command ∈ (["help", "?"] : List String) then
    { output := helpText, history := history
      translatorCalled := false, translatorInput := none
      jqlUsed := none, detailKey := none }
  else if command ∈ (["exit", "quit", "bye"] : List String) then
    { output := "exit", history := history
      translatorCalled := false, translatorInput := none
      jqlUsed := none, detailKey := none }
  else
    let r := getMyIssues search history (some command) o
    { output := r.output, history := r.history
      translatorCalled := r.translatorCalled, translatorInput := r.translatorInput
      jqlUsed := some r.jqlUsed, detailKey := none }

/-- Substring occurrence, on the character sequences. -/
def containsSub (needle hay : String) : Prop := needle.data <:+: hay.data

instance (needle hay : String) : Decidable (containsSub needle hay) :=
  inferInstanceAs (Decidable (needle.data <:+: hay.data))

/-! Helper lemmas about the regex engine, used by the timestamp theorems. -/

theorem altFirst_eq_some {α β : Type} {l : List α} {f : α → Option β} {b : β}
    (h : altFirst l f = some b) : ∃ a, a ∈ l ∧ f a = some b := by
  induction l with
  | nil => simp [altFirst] at h
  | cons x xs ih =>
    cases hx : f x with
    | some v =>
      refine ⟨x, List.mem_cons_self x xs, ?_⟩
      rw [hx]
      simp only [altFirst, hx] at h
      exact h
    | none =>
      simp only [altFirst, hx] at h
      obtain ⟨a, ha, hfa⟩ := ih h
      exact ⟨a, List.mem_cons_of_mem _ ha, hfa⟩

theorem matchSeq_append {ps : List (Char → Bool)} {cs m r : List Char}
    (h : matchSeq ps cs = some (m, r)) : cs = m ++ r := by
  induction ps generalizing cs m r with
  | nil =>
    simp only [matchSeq, Option.some.injEq, Prod.mk.injEq] at h
    rw [← h.1, ← h.2]
    rfl
  | cons p ps ih =>
    cases cs with
    | nil => simp [matchSeq] at h
    | cons c cs' =>
      cases hp : p c with
      | false => simp [matchSeq, hp] at h
      | true =>
        simp only [matchSeq, hp, if_true] at h
        cases hms : matchSeq ps cs' with
        | none => rw [hms] at h; simp at h
        | some pr =>
          obtain ⟨m', r'⟩ := pr
          rw [hms] at h
          simp only [Option.some.injEq, Prod.mk.injEq] at h
          rw [← h.1, ← h.2, List.cons_append, ← ih hms]

theorem matchAlts_eq_some {β : Type} {alts : List (List (Char → Bool))}
    {cs : List Char} {k : Nat → List Char → Option β} {b : β}
    (h : matchAlts alts cs k = some b) :
    ∃ alt m r, alt ∈ alts ∧ matchSeq alt cs = some (m, r) ∧ cs = m ++ r ∧
      k (valOf m) r = some b := by
  obtain ⟨alt, halt, hf⟩ := altFirst_eq_some h
  obtain ⟨⟨m, r⟩, hms, hk⟩ := Option.bind_eq_some.mp hf
  exact ⟨alt, m, r, halt, hms, matchSeq_append hms, hk⟩

/-- Every successful match of the compiled pattern consumed a `T` (or, under
`re.IGNORECASE`, a `t`) from the input. -/
theorem regexMatch_some_hasT {cs : List Char}
    {res : (Nat × Nat × Nat × Nat × Nat × Nat) × List Char}
    (h : regexMatch cs = some res) : ∃ c, c ∈ cs ∧ tClass c = true := by
  unfold regexMatch at h
  obtain ⟨a1, m1, r1, -, -, he1, h⟩ := matchAlts_eq_some h
  obtain ⟨a2, m2, r2, -, -, he2, h⟩ := matchAlts_eq_some h
  obtain ⟨a3, m3, r3, -, -, he3, h⟩ := matchAlts_eq_some h
  obtain ⟨a4, m4, r4, -, -, he4, h⟩ := matchAlts_eq_some h
  obtain ⟨a5, m5, r5, -, -, he5, h⟩ := matchAlts_eq_some h
  obtain ⟨a6, m6, r6, ha6, hm6, he6, h⟩ := matchAlts_eq_some h
  have ha6' : a6 = [tClass] := by simpa using ha6
  subst ha6'
  obtain ⟨c, hcr, hct⟩ : ∃ c, r5 = c :: r6 ∧ tClass c = true := by
    cases r5 with
    | nil => simp [matchSeq] at hm6
    | cons c rest =>
      cases hc : tClass c with
      | false => simp [matchSeq, hc] at hm6
      | true =>
        simp only [matchSeq, hc, if_true, Option.some.injEq, Prod.mk.injEq] at hm6
        exact ⟨c, by rw [hm6.2], hc⟩
  have hc5 : c ∈ r5 := by rw [hcr]; exact List.mem_cons_self _ _
  have hc4 : c ∈ r4 := by rw [he5]; exact List.mem_append_right _ hc5
  have hc3 : c ∈ r3 := by rw [he4]; exact List.mem_append_right _ hc4
  have hc2 : c ∈ r2 := by rw [he3]; exact List.mem_append_right _ hc3
  have hc1 : c ∈ r1 := by rw [he2]; exact List.mem_append_right _ hc2
  exact ⟨c, by rw [he1]; exact List.mem_append_right _ hc1, hct⟩

theorem daysInMonth_le (y mo : Nat) : daysInMonth y mo ≤ 31 := by
  unfold daysInMonth
  split
  · split <;> omega
  · split <;> omega

/-- Inversion of a successful parse: the regex consumed the whole slice and
the field values passed the `datetime` range checks. -/
theorem strptime19_eq_some {cs : List Char} {y mo d h mi s : Nat}
    (hp : strptime19 cs = some (y, mo, d, h, mi, s)) :
    regexMatch cs = some ((y, mo, d, h, mi, s), []) ∧
      y ≤ 9999 ∧ mo ≤ 12 ∧ d ≤ 31 ∧ h ≤ 23 ∧ mi ≤ 59 ∧ s ≤ 59 := by
  unfold strptime19 at hp
  cases hq : regexMatch cs with
  | none => rw [hq] at hp; exact absurd hp (by simp)
  | some p =>
    obtain ⟨⟨y', mo', d', h', mi', s'⟩, rest⟩ := p
    rw [hq] at hp
    simp only at hp
    split at hp
    · rename_i hcond
      simp only [Option.some.injEq, Prod.mk.injEq] at hp
      obtain ⟨hy, hmo, hd, hh, hmi, hs⟩ := hp
      subst hy; subst hmo; subst hd; subst hh; subst hmi; subst hs
      obtain ⟨hrest, -, hy2, -, hmo2, -, hd2, hh2, hmi2, hs2⟩ := hcond
      subst hrest
      exact ⟨rfl, hy2, hmo2, le_trans hd2 (daysInMonth_le _ _), hh2, hmi2, hs2⟩
    · exact absurd hp (by simp)

theorem tClass_digitChar {k : Nat} (hk : k < 10) :
    tClass (Nat.digitChar k) = false := by
  revert hk
  revert k
  decide

/-- The reformatted display string consists of digits and the separators
`-`, blank, and `:` — it contains no `T` and no `t`. -/
theorem strftime_no_tchar {y mo d h mi s : Nat} (hy : y < 10000) (hmo : mo < 100)
    (hd : d < 100) (hh : h < 100) (hmi : mi < 100) (hs : s < 100) :
    ∀ c ∈ (strftimeDisplay y mo d h mi s).data, tClass c = false := by
  have e1 : ("-" : String).data = ['-'] := rfl
  have e2 : (" " : String).data = [' '] := rfl
  have e3 : (":" : String).data = [':'] := rfl
  have e4 : ∀ l : List Char, (String.mk l).data = l := fun _ => rfl
  unfold strftimeDisplay fourDigit twoDigit
  rw [if_pos hy, if_pos hmo, if_pos hd, if_pos hh, if_pos hmi, if_pos hs]
  intro c hc
  simp only [String.data_append, e1, e2, e3, e4, List.mem_append, List.mem_cons,
    List.not_mem_nil, or_false, or_assoc] at hc
  rcases hc with rfl | rfl | rfl | rfl | rfl | rfl | rfl | rfl | rfl | rfl | rfl | rfl |
    rfl | rfl | rfl | rfl | rfl | rfl | rfl
  all_goals first
    | exact tClass_digitChar (by omega)
    | decide

/-- Re-parsing a reformatted display string fails: the parse demands a literal
`T` (or `t`) between the date and the time, but the display form uses a
blank. -/
theorem strptime19_strftime_none {y mo d h mi s : Nat} (hy : y ≤ 9999)
    (hmo : mo ≤ 12) (hd : d ≤ 31) (hh : h ≤ 23) (hmi : mi ≤ 59) (hs : s ≤ 59) :
    strptime19 ((strftimeDisplay y mo d h mi s).data.take 19) = none := by
  cases hq : strptime19 ((strftimeDisplay y mo d h mi s).data.take 19) with
  | none => rfl
  | some t =>
    obtain ⟨y', mo', d', h', mi', s'⟩ := t
    obtain ⟨hr, -⟩ := strptime19_eq_some hq
    obtain ⟨c, hc, hct⟩ := regexMatch_some_hasT hr
    have hc' : c ∈ (strftimeDisplay y mo d h mi s).data := List.take_subset _ _ hc
    have hfalse := strftime_no_tchar (by omega) (by omega) (by omega) (by omega)
      (by omega) (by omega) c hc'
    rw [hct] at hfalse
    cases hfalse

/-! The claims. -/

/-- C1: the claim states that whenever the language-model backend call raises
an exception, `_generate_jql_from_natural_language` returns the hard-coded
default query `assignee = currentUser() ORDER BY created DESC`.  The code does
not: `_get_ai_response` swallows the exception and returns `str(e)` (line 61),
so the translation returns the exception text, stripped — the fallback of
line 84 (commented `fallback query`) is unreachable.  Evaluated here at the
concrete failing input: instruction `show me bugs` with the backend raising
`Exception("connection timeout")`.  (The second half of the claim holds: the
failure is indeed never propagated to the caller.) -/
theorem generateJql_backend_failure_returns_error_text :
    (generateJqlFromNaturalLanguage [] "show me bugs"
        (.failure "connection timeout")).jql = "connection timeout"
    ∧ (generateJqlFromNaturalLanguage [] "show me bugs"
        (.failure "connection timeout")).jql ≠ defaultJql := by
  exact ⟨rfl, by decide⟩

/-- C2 counterexample: the translation does not always return a non-empty
string.  A successful backend call whose reply is all whitespace (and likewise
a raised exception with an empty message) yields the empty string after
`response.strip()`. -/
theorem generateJql_can_return_empty :
    (generateJqlFromNaturalLanguage [] "show me bugs" (.success "   ")).jql = "" := by
  rfl

/-- C2 (amended): the translation never raises and returns the backend text
(the model reply on success, the exception message on failure) whitespace-
stripped; in particular the result is non-empty whenever that text does not
strip to the empty string. -/
theorem generateJql_strips_backend_text (history : List Turn) (query : String)
    (o : BackendOutcome) (h : pyStrip (backendText o) ≠ "") :
    (generateJqlFromNaturalLanguage history query o).jql = pyStrip (backendText o)
    ∧ (generateJqlFromNaturalLanguage history query o).jql ≠ "" := by
  have he : (generateJqlFromNaturalLanguage history query o).jql
      = pyStrip (backendText o) := by
    cases o <;> rfl
  exact ⟨he, by rw [he]; exact h⟩

/-- C2 witness. -/
theorem generateJql_strips_backend_text_witness :
    (generateJqlFromNaturalLanguage [] "show open bugs"
        (.success " project = APP AND status = Open ")).jql
      = pyStrip (backendText (.success " project = APP AND status = Open "))
    ∧ (generateJqlFromNaturalLanguage [] "show open bugs"
        (.success " project = APP AND status = Open ")).jql ≠ "" :=
  generateJql_strips_backend_text [] "show open bugs"
    (.success " project = APP AND status = Open ") (by decide)

/-- C3: for every conversation history of N recorded turns, the message list
assembled for a model request is the system turn, then exactly the
min(N, 5) most recent turns in their original order (the window is a suffix
of the history), then the new user turn; the system turn is prepended
separately and not counted among the 5. -/
theorem messages_window_last_five (history : List Turn) (prompt sysPrompt : String)
    (o : BackendOutcome) :
    (getAiResponse history prompt sysPrompt o).messages
        = ⟨"system", sysPrompt⟩ ::
            (history.drop (history.length - 5) ++ [⟨"user", prompt⟩])
    ∧ (history.drop (history.length - 5)).length = min history.length 5
    ∧ history.take (history.length - 5) ++ history.drop (history.length - 5)
        = history := by
  refine ⟨?_, ?_, List.take_append_drop _ _⟩
  · cases o <;> rfl
  · rw [List.length_drop]; omega

/-- C6: inside a translation, a successful backend call appends exactly two
turns to the conversation history — the instruction as a user turn followed by
the raw (un-stripped) reply as an assistant turn — and a failed backend call
leaves the history unchanged. -/
theorem translation_history_side_effect (history : List Turn) (query : String) :
    (∀ reply, (generateJqlFromNaturalLanguage history query (.success reply)).history
        = history ++ [⟨"user", query⟩, ⟨"assistant", reply⟩])
    ∧ (∀ errMsg, (generateJqlFromNaturalLanguage history query (.failure errMsg)).history
        = history) := by
  exact ⟨fun _ => rfl, fun _ => rfl⟩

/-- C4: whenever the search response handed to `get_my_issues` contains zero
issues, the returned listing is the single message stating that no issues were
found, with no per-issue blocks (no `Issue Key:` line occurs in it). -/
theorem getMyIssues_zero_issues (search : String → SearchOutcome)
    (history : List Turn) (naturalQuery : Option String) (o : BackendOutcome)
    (h : (jiraJqlSearch (search (getMyIssues search history naturalQuery o).jqlUsed)).issues
        = []) :
    (getMyIssues search history naturalQuery o).output = noIssuesMessage
    ∧ ¬ containsSub "Issue Key:" (getMyIssues search history naturalQuery o).output := by
  have ho : (getMyIssues search history naturalQuery o).output = noIssuesMessage := by
    cases naturalQuery with
    | none =>
      simp only [getMyIssues] at h ⊢
      simp [renderIssueListing, h]
    | some q =>
      by_cases hq : q = ""
      · simp only [getMyIssues, hq, eq_self_iff_true, if_true] at h ⊢
        simp [renderIssueListing, h]
      · simp only [getMyIssues, if_neg hq] at h ⊢
        simp [renderIssueListing, h]
  rw [ho]
  exact ⟨rfl, by decide⟩

/-- C4 witness. -/
theorem getMyIssues_zero_issues_witness :
    (getMyIssues (fun _ => .returns { issues := [], total := none }) [] none
        (.success "jql")).output = noIssuesMessage
    ∧ ¬ containsSub "Issue Key:"
        (getMyIssues (fun _ => .returns { issues := [], total := none }) [] none
          (.success "jql")).output :=
  getMyIssues_zero_issues (fun _ => .returns { issues := [], total := none }) []
    none (.success "jql") rfl

/-- C5: when the normalized command is one of `my issues`, `show my issues`,
`list issues`, the search is invoked with exactly the fixed query
`assignee = currentUser() ORDER BY created DESC` and the translator is not
called. -/
theorem listing_command_uses_fixed_query (search : String → SearchOutcome)
    (fetch : String → FetchOutcome) (o : BackendOutcome) (history : List Turn)
    (input : String) (h : pyStrip (pyLower input) ∈ listingCommands) :
    (processCommand search fetch o history input).jqlUsed = some defaultJql
    ∧ (processCommand search fetch o history input).translatorCalled = false := by
  simp only [processCommand]
  rw [if_pos h]
  exact ⟨rfl, rfl⟩

/-- C5 witness: the command is matched case-insensitively after trimming. -/
theorem listing_command_uses_fixed_query_witness :
    (processCommand (fun _ => .returns { issues := [], total := none })
        (fun _ => .returns none) (.success "x") [] "  Show My Issues ").jqlUsed
      = some defaultJql
    ∧ (processCommand (fun _ => .returns { issues := [], total := none })
        (fun _ => .returns none) (.success "x") [] "  Show My Issues ").translatorCalled
      = false :=
  listing_command_uses_fixed_query _ _ _ _ "  Show My Issues " (by decide)

/-- C7: when the fetch-by-identifier call raises an exception or the issue
does not exist (a falsy response), `get_issue_details` returns the not-found
message, which contains the identifier, and never raises (the embedding is a
total function). -/
theorem getIssueDetails_not_found (fetch : String → FetchOutcome)
    (issueKey : String)
    (h : (∃ errMsg, fetch issueKey = .raises errMsg) ∨ fetch issueKey = .returns none) :
    getIssueDetails fetch issueKey = notFoundMessage issueKey
    ∧ containsSub issueKey (getIssueDetails fetch issueKey) := by
  have hn : jiraGetIssue (fetch issueKey) = none := by
    rcases h with ⟨errMsg, he⟩ | he <;> rw [he] <;> rfl
  have ho : getIssueDetails fetch issueKey = notFoundMessage issueKey := by
    simp [getIssueDetails, hn]
  refine ⟨ho, ?_⟩
  rw [ho]
  refine ⟨(foreRed ++ "Issue ").data, (" not found." ++ styleReset).data, ?_⟩
  simp [notFoundMessage, String.data_append, List.append_assoc]

/-- C7 witness: an absent issue `ABC-1`. -/
theorem getIssueDetails_not_found_witness :
    getIssueDetails (fun _ => .returns none) "ABC-1" = notFoundMessage "ABC-1"
    ∧ containsSub "ABC-1" (getIssueDetails (fun _ => .returns none) "ABC-1") :=
  getIssueDetails_not_found (fun _ => .returns none) "ABC-1" (Or.inr rfl)

/-- C8: `_format_date` is total (the embedding is a function, mirroring the
catch-all `except`), and whenever the first 19 characters of the input do not
parse as `%Y-%m-%dT%H:%M:%S` it returns the original input unchanged. -/
theorem formatDate_fallback (s : String) (h : strptime19 (s.data.take 19) = none) :
    formatDate s = s := by
  simp [formatDate, h]

/-- C8 witness. -/
theorem formatDate_fallback_witness :
    strptime19 (("hello world").data.take 19) = none
    ∧ formatDate "hello world" = "hello world" :=
  ⟨by decide, formatDate_fallback "hello world" (by decide)⟩

/-- C9: timestamp formatting is idempotent on every input string: a fallback
result is unchanged by a second pass for the same reason it fell back, and a
successfully reformatted `YYYY-MM-DD HH:MM:SS` string has no `T` separator,
so the second pass takes the fallback path and leaves it unchanged. -/
theorem formatDate_idempotent (str : String) :
    formatDate (formatDate str) = formatDate str := by
  cases hp : strptime19 (str.data.take 19) with
  | none =>
    have h1 : formatDate str = str := by simp [formatDate, hp]
    rw [h1]
    exact h1
  | some t =>
    obtain ⟨y, mo, d, h, mi, s⟩ := t
    have h1 : formatDate str = strftimeDisplay y mo d h mi s := by
      simp [formatDate, hp]
    obtain ⟨-, hy, hmo, hd, hh, hmi, hs⟩ := strptime19_eq_some hp
    rw [h1]
    simp [formatDate, strptime19_strftime_none hy hmo hd hh hmi hs]

/-- C10: `process_command` lowercases and strips the whole line once, before
any routing, and routes on the normalized text only: (1) two inputs with the
same normalization are processed identically; (2) a natural-language query
reaching the translator is exactly the normalized (lowercased, stripped) form
of what the user typed; (3) a fully-whitespace line normalizes to the empty
string, which `if natural_query:` treats as falsy, so nothing reaches the
translator; (4) a `details` identifier is extracted from the lowercased text
by splitting on `details `, then stripped and uppercased. -/
theorem processCommand_normalizes_input (search : String → SearchOutcome)
    (fetch : String → FetchOutcome) (o : BackendOutcome) (history : List Turn)
    (input other : String) :
    (pyStrip (pyLower input) = pyStrip (pyLower other) →
      processCommand search fetch o history input
        = processCommand search fetch o history other)
    ∧ (pyStrip (pyLower input) ∉ listingCommands →
        pyStartsWith (pyStrip (pyLower input)) "details " = false →
        pyStrip (pyLower input) ∉ (["help", "?"] : List String) →
        pyStrip (pyLower input) ∉ (["exit", "quit", "bye"] : List String) →
        pyStrip (pyLower input) ≠ "" →
        (processCommand search fetch o history input).translatorInput
          = some (pyStrip (pyLower input)))
    ∧ (pyStrip (pyLower input) = "" →
        (processCommand search fetch o history input).translatorInput = none
        ∧ (processCommand search fetch o history input).translatorCalled = false
        ∧ (processCommand search fetch o history input).history = history)
    ∧ (pyStartsWith (pyStrip (pyLower input)) "details " = true →
        pyStrip (pyLower input) ∉ listingCommands →
        (processCommand search fetch o history input).detailKey
          = some (pyUpper (pyStrip
              ((pySplit (pyStrip (pyLower input)) "details ").getD 1 "")))) := by
  refine ⟨?_, ?_, ?_, ?_⟩
  · intro hsame
    simp only [processCommand]
    rw [hsame]
  · intro h1 h2 h3 h4 h5
    simp [processCommand, getMyIssues, h1, h2, h3, h4, h5]
  · intro h0
    simp only [processCommand]
    rw [if_neg (by rw [h0]; decide), if_neg (by rw [h0]; decide),
      if_neg (by rw [h0]; decide), if_neg (by rw [h0]; decide), h0]
    simp [getMyIssues]
  · intro h1 h2
    simp [processCommand, h1, h2]

/-- C10 witness: a mixed-case padded query normalizes before routing, a
whitespace-only line never reaches the translator, and a mixed-case `details`
command has its key extracted and uppercased. -/
theorem processCommand_normalizes_input_witness :
    (processCommand (fun _ => .returns { issues := [], total := none })
        (fun _ => .returns none) (.success "x") [] "  Find BLOCKED Issues "
      = processCommand (fun _ => .returns { issues := [], total := none })
        (fun _ => .returns none) (.success "x") [] "find blocked issues")
    ∧ (processCommand (fun _ => .returns { issues := [], total := none })
        (fun _ => .returns none) (.success "x") [] "  Find BLOCKED Issues ").translatorInput
      = some "find blocked issues"
    ∧ (processCommand (fun _ => .returns { issues := [], total := none })
        (fun _ => .returns none) (.success "x") [] "   ").translatorCalled = false
    ∧ (processCommand (fun _ => .returns { issues := [], total := none })
        (fun _ => .returns none) (.success "x") [] " Details jira-12 ").detailKey
      = some "JIRA-12" := by
  refine ⟨?_, ?_, ?_, ?_⟩
  · exact (processCommand_normalizes_input _ _ _ _ "  Find BLOCKED Issues "
      "find blocked issues").1 (by decide)
  · exact (processCommand_normalizes_input _ _ _ _ "  Find BLOCKED Issues "
      "find blocked issues").2.1 (by decide) (by decide) (by decide) (by decide)
      (by decide)
  · exact ((processCommand_normalizes_input _ _ _ _ "   " "   ").2.2.1
      (by decide)).2.1
  · have hk : pyUpper (pyStrip
        ((pySplit (pyStrip (pyLower " Details jira-12 ")) "details ").getD 1 ""))
        = "JIRA-12" := by decide
    rw [← hk]
    exact (processCommand_normalizes_input _ _ _ _ " Details jira-12 "
      " Details jira-12 ").2.2.2 (by decide) (by decide)
